import Mathlib

/-!
Verification of the PyCNC motion-control core (`cnc/gmachine.py`) against its
natural-language specification.

The machine logic in `gmachine.py` is embedded shallowly:

* Python floats become exact numbers (`ℚ` for machine state, `ℝ` where the
  circular-arc geometry uses `math.sqrt`).
* Exceptions become `Except` results; a failing command returns an error and
  the caller keeps the previous machine state, matching the Python code in
  which no state field is assigned before a raising check.
* Calls into the hardware layer (`hal.*`) are recorded as a list of
  `HalAction` values in the order they are issued.

The `Coordinates` helper class (`cnc/coordinates.py`) and the configuration
constants (`cnc/config`) are not part of the provided sources, so they are
modelled from the specification and as explicit `Config` parameters.
-/

namespace PyCNC

/-- Modelled from the spec: the Coordinate Vector of `cnc/coordinates.py`
(absent from the sources) — four components (three linear axes plus one
auxiliary/extruder axis), component-wise arithmetic. -/
structure Coordinates where
  x : ℚ
  y : ℚ
  z : ℚ
  e : ℚ
  deriving DecidableEq

attribute [ext] Coordinates

/-- Modelled from the spec: component-wise addition of coordinate vectors. -/
instance : Add Coordinates :=
  ⟨fun a b => ⟨a.x + b.x, a.y + b.y, a.z + b.z, a.e + b.e⟩⟩

/-- Modelled from the spec: component-wise subtraction of coordinate vectors. -/
instance : Sub Coordinates :=
  ⟨fun a b => ⟨a.x - b.x, a.y - b.y, a.z - b.z, a.e - b.e⟩⟩

/-- Rounding of one component to the nearest integer multiple of its
per-axis resolution `b` (modelled from the spec's description of
`Coordinates.round`). -/
def quantizeAxis (v b : ℚ) : ℚ :=
  (round (v / b) : ℤ) * b

/-- Modelled from the spec: `Coordinates.round` — each component rounded
independently to the nearest integer multiple of its resolution. -/
def Coordinates.round (c : Coordinates) (bx b_y bz be : ℚ) : Coordinates :=
  ⟨quantizeAxis c.x bx, quantizeAxis c.y b_y, quantizeAxis c.z bz,
   quantizeAxis c.e be⟩

/-- Modelled from the spec: `Coordinates.is_zero` — true iff all components
are exactly zero. -/
def Coordinates.is_zero (c : Coordinates) : Bool :=
  c.x == 0 && c.y == 0 && c.z == 0 && c.e == 0

/-- Modelled from the spec: `Coordinates.is_in_aabb` — true iff every
component lies within the inclusive per-axis interval given by the two
corner points. -/
def Coordinates.is_in_aabb (c lo hi : Coordinates) : Bool :=
  decide (lo.x ≤ c.x ∧ c.x ≤ hi.x) && decide (lo.y ≤ c.y ∧ c.y ≤ hi.y) &&
  decide (lo.z ≤ c.z ∧ c.z ≤ hi.z) && decide (lo.e ≤ c.e ∧ c.e ≤ hi.e)

/-- Interpolation plane (`PLANE_XY` / `PLANE_YZ` / `PLANE_ZX` of `cnc/enums`). -/
inductive Plane where
  | XY
  | YZ
  | ZX
  deriving DecidableEq

/-- Arc direction (`CW` / `CCW` of `cnc/enums`). -/
inductive Direction where
  | CW
  | CCW
  deriving DecidableEq

/-- Heater identifiers (`HEATER_EXTRUDER` / `HEATER_BED`). -/
inductive HeaterId where
  | extruder
  | bed
  deriving DecidableEq

/-- The fixed set of reasons carried by `GMachineException`. -/
inductive MachineError where
  | outOfRange
  | zeroRadius
  | badFeed
  | badDelay
  | badSpindle
  | noTemperature
  | badTemperature
  | cannotMeasure
  | unknownCommand
  deriving DecidableEq

/-- Result errors of a command: either a `GMachineException` machine fault,
or the uncaught Python `ZeroDivisionError` that the division in
`__adjust_circle` can raise. -/
inductive RunError where
  | fault (e : MachineError)
  | zeroDivision
  deriving DecidableEq

/-- The configuration constants of `cnc/config` (absent from the sources),
modelled as explicit parameters. -/
structure Config where
  table_size_x : ℚ
  table_size_y : ℚ
  table_size_z : ℚ
  ppmm_x : ℚ
  ppmm_y : ℚ
  ppmm_z : ℚ
  ppmm_e : ℚ
  max_velocity : ℚ
  spindle_max_rpm : ℚ
  extruder_max_temperature : ℚ
  bed_max_temperature : ℚ
  min_temperature : ℚ
  deriving DecidableEq

/-- The persistent state of `GMachine`.  The Python heater dictionary is
represented by one optional target temperature per heater (a handle is
present in the map iff its heater is active). -/
structure MachineState where
  position : Coordinates
  velocity : ℚ
  spindle_rpm : ℚ
  pause : ℚ
  local_offset : Coordinates
  convertCoordinates : ℚ
  absoluteCoordinates : Bool
  plane : Plane
  fan_state : Bool
  extruder_target : Option ℚ
  bed_target : Option ℚ
  deriving DecidableEq

/-- External sensor environment: the value a heater's `measure()` call
returns, or `none` when the read raises `IOError`/`OSError`. -/
structure Env where
  extruder_temp : Option ℚ
  bed_temp : Option ℚ
  deriving DecidableEq

/-- Calls issued to the hardware layer (`hal.*`) and to heater handles,
recorded in order. -/
inductive HalAction where
  | join
  | move_linear (delta : Coordinates) (velocity : ℚ)
  | move_circular (circle_end radius : Coordinates) (plane : Plane)
      (direction : Direction) (velocity : ℚ)
  | spindle_control (percent : ℚ)
  | fan_control (state : Bool)
  | sleep (duration : ℚ)
  | heater_stop (h : HeaterId)
  | heater_start (h : HeaterId) (temperature : ℚ)
  | heater_wait (h : HeaterId)
  deriving DecidableEq

/-- Textual replies of `do_command`, kept structured instead of formatted. -/
inductive Answer where
  | temperature (et bt : Option ℚ)
  | position (p : Coordinates)
  deriving DecidableEq

/-- The command record produced by the external g-code parser
(`cnc/gcode.py`), specified only at its interface boundary. -/
structure GCode where
  command : Option String
  has_coordinates : Bool
  coordinates : Coordinates → ℚ → Coordinates
  radius : Coordinates → ℚ → Coordinates
  get : String → ℚ → ℚ
  has : String → Bool

/-- The travel envelope's lower corner. -/
def envLo : Coordinates := ⟨0, 0, 0, 0⟩

/-- The travel envelope's upper corner
`(TABLE_SIZE_X_MM, TABLE_SIZE_Y_MM, TABLE_SIZE_Z_MM, 0)`. -/
def envHi (cfg : Config) : Coordinates :=
  ⟨cfg.table_size_x, cfg.table_size_y, cfg.table_size_z, 0⟩

/-- `GMachine.__check_delta`: raise "out of effective area" unless the
position reached by `delta` stays inside the travel envelope. -/
def check_delta (cfg : Config) (s : MachineState) (delta : Coordinates) :
    Except RunError Unit :=
  let pos := s.position + delta
  if pos.is_in_aabb envLo (envHi cfg) then .ok ()
  else .error (.fault .outOfRange)

/-- Round a vector to the stepper resolution, as done at the start of
`_move_linear` and `_circular`. -/
def roundToSteps (cfg : Config) (c : Coordinates) : Coordinates :=
  c.round (1 / cfg.ppmm_x) (1 / cfg.ppmm_y) (1 / cfg.ppmm_z) (1 / cfg.ppmm_e)

/-- `GMachine._move_linear`: quantize the delta, no-op if it is zero,
bounds-check, then dispatch one linear segment and commit the position. -/
def move_linear (cfg : Config) (s : MachineState) (delta : Coordinates)
    (velocity : ℚ) : List HalAction × Except RunError MachineState :=
  let delta := roundToSteps cfg delta
  if delta.is_zero then ([], .ok s)
  else
    match check_delta cfg s delta with
    | .error e => ([], .error e)
    | .ok _ =>
        ([.move_linear delta velocity],
         .ok { s with position := s.position + delta })

/-- `GMachine.home`: park by moving Z to zero first, then X and Y. -/
def home (cfg : Config) (s : MachineState) :
    List HalAction × Except RunError MachineState :=
  match move_linear cfg s ⟨0, 0, -s.position.z, 0⟩ cfg.max_velocity with
  | (a1, .error e) => (a1, .error e)
  | (a1, .ok s1) =>
      match move_linear cfg s1 ⟨-s1.position.x, -s1.position.y, 0, 0⟩
          cfg.max_velocity with
      | (a2, r) => (a1 ++ a2, r)

open Classical in
/-- `GMachine.__quarter`: quadrant index (1–4) from the sign pattern of the
two in-plane components. -/
noncomputable def quarter (pa pb : ℝ) : ℤ :=
  if pa ≥ 0 ∧ pb ≥ 0 then 1
  else if pa < 0 ∧ pb ≥ 0 then 2
  else if pa < 0 ∧ pb < 0 then 3
  else 4

open Classical in
/-- Python's `math.copysign m s` on the exact values used by
`__adjust_circle`: `m` is nonnegative at both call sites, and a zero second
argument is the float `+0.0`, whose sign bit is positive. -/
noncomputable def copysign (m s : ℝ) : ℝ :=
  if s < 0 then -m else m

open Classical in
/-- The quadrant-walk loop of `GMachine.__adjust_circle` (the
`for _ in range(0, 4)` loop), with the remaining iteration count and the
loop variables `q`, `pq` explicit. -/
noncomputable def circle_walk (direction : Direction) (e_q : ℤ)
    (ra rb : ℚ) (r : ℝ) (pa pb ma mb : ℚ) :
    ℕ → ℤ → ℤ → Except RunError Unit
  | 0, _, _ => .ok ()
  | n + 1, q, pq =>
      let q1 : ℤ := match direction with
        | .CW => q - 1
        | .CCW => q + 1
      let q2 := if q1 ≤ 0 then 4 else if q1 ≥ 5 then 1 else q1
      if q2 = e_q then .ok ()
      else
        let is_raise : Prop :=
          if (pq = 1 ∧ q2 = 4) ∨ (pq = 4 ∧ q2 = 1) then
            (pa : ℝ) + ra + r > ma
          else if (pq = 1 ∧ q2 = 2) ∨ (pq = 2 ∧ q2 = 1) then
            (pb : ℝ) + rb + r > mb
          else if (pq = 2 ∧ q2 = 3) ∨ (pq = 3 ∧ q2 = 2) then
            (pa : ℝ) + ra - r < 0
          else if (pq = 3 ∧ q2 = 4) ∨ (pq = 4 ∧ q2 = 3) then
            (pb : ℝ) + rb - r < 0
          else False
        if is_raise then .error (.fault .outOfRange)
        else circle_walk direction e_q ra rb r pa pb ma mb n q2 q2

/-- Run the quadrant walk for its effect (the Python `for` loop either
raises or falls through), then return the already-computed end point. -/
def walk_then (w : Except RunError Unit) (v : ℝ × ℝ) :
    Except RunError (ℝ × ℝ) :=
  match w with
  | .error e => .error e
  | .ok _ => .ok v

open Classical in
/-- `GMachine.__adjust_circle`: compute the in-plane end point of the arc
and verify, via the quadrant walk, that the swept arc stays on the table.
The Python float division `(db - rb) / (da - ra)` raises an uncaught
`ZeroDivisionError` when `da = ra`; that outcome is embedded as the
explicit `RunError.zeroDivision` result. -/
noncomputable def adjust_circle (da db ra rb : ℚ) (direction : Direction)
    (pa pb ma mb : ℚ) : Except RunError (ℝ × ℝ) :=
  let r : ℝ := Real.sqrt ((ra : ℝ) * ra + (rb : ℝ) * rb)
  if r = 0 then .error (.fault .zeroRadius)
  else
    let sq := quarter (-(ra : ℝ)) (-(rb : ℝ))
    let endData : Except RunError (ℝ × ℝ × ℤ) :=
      if da = 0 ∧ db = 0 then
        -- full circle: mark the end quadrant as non-existing to check all
        .ok ((da : ℝ), (db : ℝ), (5 : ℤ))
      else if (da : ℝ) - (ra : ℝ) = 0 then .error RunError.zeroDivision
      else
        let b := ((db : ℝ) - (rb : ℝ)) / ((da : ℝ) - (ra : ℝ))
        let ea := copysign (Real.sqrt (r * r / (1 + |b|))) ((da : ℝ) - ra)
        let eb := copysign (Real.sqrt (r * r - ea * ea)) ((db : ℝ) - rb)
        .ok (ea + ra, eb + rb, quarter ea eb)
    match endData with
    | .error e => .error e
    | .ok (ea, eb, e_q) =>
        walk_then (circle_walk direction e_q ra rb r pa pb ma mb 4 sq sq)
          (ea, eb)

/-- Rounding of one real-valued component to the nearest integer multiple
of its (rational) resolution; used for the assembled circle-end vector. -/
noncomputable def quantizeAxisR (v : ℝ) (b : ℚ) : ℚ :=
  (round (v / (b : ℝ)) : ℤ) * b

/-- The first in-plane component of a vector for a given interpolation
plane (the `a` axis of `__adjust_circle`). -/
def planeA : Plane → Coordinates → ℚ
  | .XY, c => c.x
  | .YZ, c => c.y
  | .ZX, c => c.z

/-- The second in-plane component of a vector for a given interpolation
plane (the `b` axis of `__adjust_circle`). -/
def planeB : Plane → Coordinates → ℚ
  | .XY, c => c.y
  | .YZ, c => c.z
  | .ZX, c => c.x

/-- `GMachine._circular`: quantize delta and radius, bounds-check the
nominal end point, run the quadrant-based arc check for the active plane,
then dispatch a circular segment (plus a residual linear segment when the
quantized arc end differs from the requested delta) and commit the new
position. -/
noncomputable def circular (cfg : Config) (s : MachineState)
    (delta radius : Coordinates) (velocity : ℚ) (direction : Direction) :
    List HalAction × Except RunError MachineState :=
  let delta := roundToSteps cfg delta
  let radius := roundToSteps cfg radius
  match check_delta cfg s delta with
  | .error e => ([], .error e)
  | .ok _ =>
      let adj : Except RunError (ℝ × ℝ) :=
        match s.plane with
        | .XY =>
            adjust_circle delta.x delta.y radius.x radius.y direction
              s.position.x s.position.y cfg.table_size_x cfg.table_size_y
        | .YZ =>
            adjust_circle delta.y delta.z radius.y radius.z direction
              s.position.y s.position.z cfg.table_size_y cfg.table_size_z
        | .ZX =>
            adjust_circle delta.z delta.x radius.z radius.x direction
              s.position.z s.position.x cfg.table_size_z cfg.table_size_x
      match adj with
      | .error e => ([], .error e)
      | .ok (ea, eb) =>
          let cend : ℝ × ℝ × ℝ := match s.plane with
            | .XY => (ea, eb, (delta.z : ℝ))
            | .YZ => ((delta.x : ℝ), ea, eb)
            | .ZX => (eb, (delta.y : ℝ), ea)
          let circle_end : Coordinates :=
            ⟨quantizeAxisR cend.1 (1 / cfg.ppmm_x),
             quantizeAxisR cend.2.1 (1 / cfg.ppmm_y),
             quantizeAxisR cend.2.2 (1 / cfg.ppmm_z),
             quantizeAxisR (delta.e : ℝ) (1 / cfg.ppmm_e)⟩
          let linear_delta := delta - circle_end
          let acts :=
            [HalAction.move_circular circle_end radius s.plane direction
              velocity] ++
            (if linear_delta.is_zero then []
             else [HalAction.move_linear linear_delta velocity])
          (acts, .ok { s with position := s.position + circle_end + linear_delta })

/-- The target temperature stored for one heater (lookup in the Python
`self._heaters` dictionary). -/
def heaterTarget (s : MachineState) : HeaterId → Option ℚ
  | .extruder => s.extruder_target
  | .bed => s.bed_target

/-- Store (or clear) the target temperature of one heater. -/
def setHeaterTarget (s : MachineState) : HeaterId → Option ℚ → MachineState
  | .extruder, t => { s with extruder_target := t }
  | .bed, t => { s with bed_target := t }

/-- Whether the `measure()` probe for a heater succeeds in the given
environment (Python catches `IOError`/`OSError` from the sensor). -/
def measurable (env : Env) : HeaterId → Bool
  | .extruder => env.extruder_temp.isSome
  | .bed => env.bed_temp.isSome

/-- `GMachine._heat`: probe the sensor, stop any active handle, then start
a new handle when the target is non-zero (waiting if requested). -/
def heat (env : Env) (s : MachineState) (heater : HeaterId)
    (temperature : ℚ) (wait : Bool) :
    List HalAction × Except RunError MachineState :=
  if ¬ measurable env heater then ([], .error (.fault .cannotMeasure))
  else
    let stopped :=
      match heaterTarget s heater with
      | some _ =>
          ([HalAction.heater_stop heater], setHeaterTarget s heater none)
      | none => (([] : List HalAction), s)
    if temperature ≠ 0 then
      (stopped.1 ++ [HalAction.heater_start heater temperature] ++
        (if wait then [HalAction.heater_wait heater] else []),
       .ok (setHeaterTarget stopped.2 heater (some temperature)))
    else (stopped.1, .ok stopped.2)

/-- `GMachine._spindle`: wait for motion to stop, then set the spindle to
the requested percentage of its maximum speed. -/
def spindle (cfg : Config) (spindle_speed : ℚ) : List HalAction :=
  [HalAction.join,
   HalAction.spindle_control (100 * spindle_speed / cfg.spindle_max_rpm)]

/-- `GMachine.reset`: reinitialize every program-configurable field
(position, fan and heaters are untouched). -/
def reset (s : MachineState) : MachineState :=
  { s with
    velocity := 1000
    spindle_rpm := 1000
    pause := 0
    local_offset := ⟨0, 0, 0, 0⟩
    convertCoordinates := 1
    absoluteCoordinates := true
    plane := .XY }

/-- Pair a motion-path result with the absent textual answer. -/
def mapRes (p : List HalAction × Except RunError MachineState) :
    List HalAction × Except RunError (MachineState × Option Answer) :=
  (p.1, p.2.map (fun s => (s, none)))

/-- The command-selection `if`/`elif` chain of `GMachine.do_command`, after
the shared parameter extraction and validation. -/
noncomputable def dispatch (cfg : Config) (env : Env) (s : MachineState)
    (gcode : GCode) (c : Option String) (delta radius : Coordinates)
    (velocity pause : ℚ) :
    List HalAction × Except RunError (MachineState × Option Answer) :=
  if c = some ("G0") then mapRes (move_linear cfg s delta cfg.max_velocity)
  else if c = some ("G1") then mapRes (move_linear cfg s delta velocity)
  else if c = some ("G2") then
    mapRes (circular cfg s delta radius velocity .CW)
  else if c = some ("G3") then
    mapRes (circular cfg s delta radius velocity .CCW)
  else if c = some ("G4") then
    ([HalAction.join, HalAction.sleep pause], .ok (s, none))
  else if c = some ("G17") then ([], .ok ({ s with plane := .XY }, none))
  else if c = some ("G18") then ([], .ok ({ s with plane := .ZX }, none))
  else if c = some ("G19") then ([], .ok ({ s with plane := .YZ }, none))
  else if c = some ("G20") then
    ([], .ok ({ s with convertCoordinates := 254 / 10 }, none))
  else if c = some ("G21") then
    ([], .ok ({ s with convertCoordinates := 1 }, none))
  else if c = some ("G28") then mapRes (home cfg s)
  else if c = some ("G53") then
    ([], .ok ({ s with local_offset := ⟨0, 0, 0, 0⟩ }, none))
  else if c = some ("G90") then
    ([], .ok ({ s with absoluteCoordinates := true }, none))
  else if c = some ("G91") then
    ([], .ok ({ s with absoluteCoordinates := false }, none))
  else if c = some ("G92") then
    ([], .ok ({ s with local_offset :=
        s.position - gcode.coordinates ⟨0, 0, 0, 0⟩ s.convertCoordinates },
      none))
  else if c = some ("M3") then
    let spindle_rpm := gcode.get ("S") s.spindle_rpm
    if spindle_rpm < 0 ∨ spindle_rpm > cfg.spindle_max_rpm then
      ([], .error (.fault .badSpindle))
    else
      (spindle cfg spindle_rpm, .ok ({ s with spindle_rpm := spindle_rpm },
        none))
  else if c = some ("M5") then (spindle cfg 0, .ok (s, none))
  else if c = some ("M2") ∨ c = some ("M30") then ([], .ok (reset s, none))
  else if c = some ("M104") ∨ c = some ("M109") ∨ c = some ("M140") ∨
      c = some ("M190") then
    let heater : HeaterId :=
      if c = some ("M104") ∨ c = some ("M109") then .extruder else .bed
    let wait : Bool := c == some ("M109") || c == some ("M190")
    if ¬ gcode.has ("S") then ([], .error (.fault .noTemperature))
    else
      let t := gcode.get ("S") 0
      if ((heater = .extruder ∧ t > cfg.extruder_max_temperature) ∨
          (heater = .bed ∧ t > cfg.bed_max_temperature) ∨
          t < cfg.min_temperature) ∧ t ≠ 0 then
        ([], .error (.fault .badTemperature))
      else mapRes (heat env s heater t wait)
  else if c = some ("M105") then
    match env.extruder_temp, env.bed_temp with
    | none, none => ([], .error (.fault .cannotMeasure))
    | et, bt => ([], .ok (s, some (.temperature et bt)))
  else if c = some ("M106") then
    if gcode.get ("S") 1 ≠ 0 then
      ([HalAction.fan_control true], .ok ({ s with fan_state := true }, none))
    else
      ([HalAction.fan_control false],
       .ok ({ s with fan_state := false }, none))
  else if c = some ("M107") then
    ([HalAction.fan_control false], .ok ({ s with fan_state := false }, none))
  else if c = some ("M111") then ([], .ok (s, none))
  else if c = some ("M114") then
    ([HalAction.join, HalAction.join], .ok (s, some (.position s.position)))
  else if c = none then ([], .ok (s, none))
  else ([], .error (.fault .unknownCommand))

/-- `GMachine.do_command`: resolve the command identifier and the delta,
radius, velocity and pause parameters against the persistent state,
validate the shared parameters, dispatch, and on success store velocity
and pause back as the new defaults. -/
noncomputable def do_command (cfg : Config) (env : Env) (s : MachineState)
    (gcode : GCode) :
    List HalAction × Except RunError (MachineState × Option Answer) :=
  let c := match gcode.command with
    | none => if gcode.has_coordinates then some ("G1") else none
    | some c0 => some c0
  let delta :=
    if s.absoluteCoordinates then
      gcode.coordinates s.position s.convertCoordinates + s.local_offset -
        s.position
    else
      gcode.coordinates ⟨0, 0, 0, 0⟩ s.convertCoordinates
  let velocity := gcode.get ("F") s.velocity
  let pause := gcode.get ("P") s.pause
  let radius := gcode.radius ⟨0, 0, 0, 0⟩ s.convertCoordinates
  if velocity ≤ 0 ∨ velocity > cfg.max_velocity then
    ([], .error (.fault .badFeed))
  else if pause < 0 then ([], .error (.fault .badDelay))
  else
    let step := dispatch cfg env s gcode c delta radius velocity pause
    (step.1,
     step.2.map (fun p =>
       ({ p.1 with velocity := velocity, pause := pause }, p.2)))

/-- Process a list of commands in sequence; a command that fails leaves the
machine state untouched, exactly as a raised `GMachineException` leaves
the Python object unchanged. -/
noncomputable def run_commands (cfg : Config) (env : Env) :
    MachineState → List GCode → MachineState
  | s, [] => s
  | s, g :: gs =>
      match (do_command cfg env s g).2 with
      | .ok p => run_commands cfg env p.1 gs
      | .error _ => run_commands cfg env s gs

/-- The machine state after `GMachine.__init__` (position at the origin,
then `reset()`), before any command is processed. -/
def initial : MachineState :=
  { position := ⟨0, 0, 0, 0⟩
    velocity := 1000
    spindle_rpm := 1000
    pause := 0
    local_offset := ⟨0, 0, 0, 0⟩
    convertCoordinates := 1
    absoluteCoordinates := true
    plane := .XY
    fan_state := false
    extruder_target := none
    bed_target := none }

/-- A concrete configuration (100 mm cubic table, 1 pulse per mm) used for
the concrete evaluations. -/
def cfg0 : Config :=
  { table_size_x := 100
    table_size_y := 100
    table_size_z := 100
    ppmm_x := 1
    ppmm_y := 1
    ppmm_z := 1
    ppmm_e := 1
    max_velocity := 2400
    spindle_max_rpm := 10000
    extruder_max_temperature := 250
    bed_max_temperature := 100
    min_temperature := 40 }

/-- An environment in which both temperature sensors answer. -/
def env0 : Env := { extruder_temp := some 20, bed_temp := some 20 }

/-- A command record carrying only a command identifier: no coordinates
and no numeric parameters. -/
def bareGCode (c : Option String) : GCode :=
  { command := c
    has_coordinates := false
    coordinates := fun base _ => base
    radius := fun base _ => base
    get := fun _ d => d
    has := fun _ => false }

/-! ## Basic lemmas about the embedded definitions -/

@[simp] theorem Coordinates.add_def (a b : Coordinates) :
    a + b = ⟨a.x + b.x, a.y + b.y, a.z + b.z, a.e + b.e⟩ := rfl

@[simp] theorem Coordinates.sub_def (a b : Coordinates) :
    a - b = ⟨a.x - b.x, a.y - b.y, a.z - b.z, a.e - b.e⟩ := rfl

theorem Coordinates.is_zero_iff (c : Coordinates) :
    c.is_zero = true ↔ c = ⟨0, 0, 0, 0⟩ := by
  cases c
  simp [Coordinates.is_zero, Coordinates.ext_iff, and_assoc]

theorem Coordinates.is_in_aabb_iff (c lo hi : Coordinates) :
    c.is_in_aabb lo hi = true ↔
      (lo.x ≤ c.x ∧ c.x ≤ hi.x) ∧ (lo.y ≤ c.y ∧ c.y ≤ hi.y) ∧
      (lo.z ≤ c.z ∧ c.z ≤ hi.z) ∧ (lo.e ≤ c.e ∧ c.e ≤ hi.e) := by
  simp [Coordinates.is_in_aabb, and_assoc]

theorem quantizeAxis_idem (v b : ℚ) :
    quantizeAxis (quantizeAxis v b) b = quantizeAxis v b := by
  unfold quantizeAxis
  rcases eq_or_ne b 0 with hb | hb
  · simp [hb]
  · rw [mul_div_cancel_right₀ _ hb, round_intCast]

theorem quantizeAxis_zero (b : ℚ) : quantizeAxis 0 b = 0 := by
  simp [quantizeAxis]

theorem quantizeAxis_neg_of_fixed {v b : ℚ} (h : quantizeAxis v b = v) :
    quantizeAxis (-v) b = -v := by
  unfold quantizeAxis at *
  rcases eq_or_ne b 0 with hb | hb
  · simp only [hb, div_zero, mul_zero] at h ⊢
    rw [← h]
    norm_num
  · have hv : v / b = ((round (v / b) : ℤ) : ℚ) := (div_eq_iff hb).mpr h.symm
    rw [neg_div, hv, ← Int.cast_neg, round_intCast, Int.cast_neg, neg_mul, h]

theorem quarter_mem (pa pb : ℝ) :
    quarter pa pb = 1 ∨ quarter pa pb = 2 ∨ quarter pa pb = 3 ∨
      quarter pa pb = 4 := by
  unfold quarter
  split_ifs <;> simp

theorem circle_walk_error_outOfRange (dir : Direction) (e_q : ℤ)
    (ra rb : ℚ) (r : ℝ) (pa pb ma mb : ℚ) :
    ∀ n q pq e, circle_walk dir e_q ra rb r pa pb ma mb n q pq = .error e →
      e = .fault .outOfRange := by
  intro n
  induction n with
  | zero =>
      intro q pq e h
      simp [circle_walk] at h
  | succ n ih =>
      intro q pq e h
      simp only [circle_walk] at h
      split_ifs at h <;>
        first
          | exact ih _ _ _ h
          | (simp at h
             try exact h.symm)

/-- With the sentinel end quadrant 5, four walk steps starting anywhere
traverse all four quadrant transitions, so the walk fails iff any of the
four boundary checks triggers. -/
theorem circle_walk_full (dir : Direction) (ra rb : ℚ) (r : ℝ)
    (pa pb ma mb : ℚ) (q : ℤ) (hq : q = 1 ∨ q = 2 ∨ q = 3 ∨ q = 4) :
    circle_walk dir 5 ra rb r pa pb ma mb 4 q q =
      (if (pa : ℝ) + ra + r > ma ∨ (pb : ℝ) + rb + r > mb ∨
          (pa : ℝ) + ra - r < 0 ∨ (pb : ℝ) + rb - r < 0 then
        .error (.fault .outOfRange)
      else .ok ()) := by
  by_cases c1 : (pa : ℝ) + ra + r > ma <;>
    by_cases c2 : (pb : ℝ) + rb + r > mb <;>
    by_cases c3 : (pa : ℝ) + ra - r < 0 <;>
    by_cases c4 : (pb : ℝ) + rb - r < 0 <;>
    rcases hq with h | h | h | h <;> subst h <;> cases dir <;>
    simp [circle_walk, c1, c2, c3, c4]

theorem add_zero_coord (c : Coordinates) : c + ⟨0, 0, 0, 0⟩ = c := by
  ext <;> simp

/-- C9: quantization (per-axis rounding to the nearest multiple of the
resolution) is idempotent: rounding an already-rounded vector yields the
same vector, for every vector and every resolution tuple. -/
theorem round_idempotent (v : Coordinates) (bx b_y bz be : ℚ) :
    (v.round bx b_y bz be).round bx b_y bz be = v.round bx b_y bz be := by
  unfold Coordinates.round
  simp [quantizeAxis_idem]

theorem move_linear_eval (cfg : Config) (s : MachineState)
    (delta : Coordinates) (velocity : ℚ)
    (hd : roundToSteps cfg delta = delta) :
    move_linear cfg s delta velocity =
      if delta.is_zero then ([], .ok s)
      else if (s.position + delta).is_in_aabb envLo (envHi cfg) then
        ([.move_linear delta velocity],
         .ok { s with position := s.position + delta })
      else ([], .error (.fault .outOfRange)) := by
  unfold move_linear check_delta
  rw [hd]
  by_cases h1 : delta.is_zero = true
  · simp only [if_pos h1]
  · rw [if_neg h1, if_neg h1]
    by_cases h2 : (s.position + delta).is_in_aabb envLo (envHi cfg) = true
    · rw [if_pos h2, if_pos h2]
    · rw [if_neg h2, if_neg h2]

/-- C7: a linear move whose delta quantizes to zero is a no-op: it
succeeds, the stored position is unchanged and no motion segment is
dispatched to the hardware layer. -/
theorem linear_zero_delta_noop (cfg : Config) (s : MachineState)
    (delta : Coordinates) (velocity : ℚ)
    (h : (roundToSteps cfg delta).is_zero = true) :
    move_linear cfg s delta velocity = ([], .ok s) := by
  unfold move_linear
  simp [h]

/-- Witness for C7 at a concrete input: with a resolution of 1 mm, the
delta (2/5, -1/5, 0, 0) quantizes to zero and the move is a no-op. -/
theorem linear_zero_delta_noop_witness :
    (roundToSteps cfg0 ⟨2/5, -1/5, 0, 0⟩).is_zero = true ∧
      move_linear cfg0 initial ⟨2/5, -1/5, 0, 0⟩ 100 = ([], .ok initial) := by
  refine ⟨?_, linear_zero_delta_noop cfg0 initial ⟨2/5, -1/5, 0, 0⟩ 100 ?_⟩ <;>
    with_unfolding_all rfl

/-- C2: a linear move whose quantized delta would take the position
outside the travel envelope on some axis fails with the out-of-range
machine fault and issues no hardware action; on the error the caller
keeps the previous machine state, so the stored position is unchanged. -/
theorem linear_out_of_range_fails (cfg : Config) (s : MachineState)
    (delta : Coordinates) (velocity : ℚ)
    (hpos : s.position.is_in_aabb envLo (envHi cfg) = true)
    (hout : (s.position + roundToSteps cfg delta).is_in_aabb envLo
      (envHi cfg) = false) :
    move_linear cfg s delta velocity = ([], .error (.fault .outOfRange)) := by
  have hz : (roundToSteps cfg delta).is_zero ≠ true := by
    intro h
    rw [Coordinates.is_zero_iff] at h
    rw [h, add_zero_coord, hpos] at hout
    cases hout
  have hne : ¬((s.position + roundToSteps cfg delta).is_in_aabb envLo
      (envHi cfg) = true) := by
    simp only [hout]
    exact Bool.false_ne_true
  unfold move_linear check_delta
  rw [if_neg hz, if_neg hne]

/-- Witness for C2 at a concrete input: from the origin, a 200 mm X move
on a 100 mm table is rejected as out of range. -/
theorem linear_out_of_range_fails_witness :
    initial.position.is_in_aabb envLo (envHi cfg0) = true ∧
      (initial.position + roundToSteps cfg0 ⟨200, 0, 0, 0⟩).is_in_aabb envLo
        (envHi cfg0) = false ∧
      move_linear cfg0 initial ⟨200, 0, 0, 0⟩ 100 =
        ([], .error (.fault .outOfRange)) := by
  refine ⟨?_, ?_, linear_out_of_range_fails cfg0 initial ⟨200, 0, 0, 0⟩ 100
    ?_ ?_⟩ <;> with_unfolding_all rfl

theorem walk_then_ne_zeroDivision (w : Except RunError Unit) (v : ℝ × ℝ)
    (hw : ∀ e, w = .error e → e = .fault .outOfRange) :
    walk_then w v ≠ .error .zeroDivision := by
  cases w with
  | error e =>
      have he := hw e rfl
      simp [walk_then, he]
  | ok u => simp [walk_then]

theorem adjust_circle_zero_radius (da db : ℚ) (dir : Direction)
    (pa pb ma mb : ℚ) :
    adjust_circle da db 0 0 dir pa pb ma mb =
      .error (.fault .zeroRadius) := by
  have h0 : Real.sqrt (((0 : ℚ) : ℝ) * ((0 : ℚ) : ℝ) +
      ((0 : ℚ) : ℝ) * ((0 : ℚ) : ℝ)) = 0 := by
    push_cast
    simp
  simp only [adjust_circle]
  rw [if_pos h0]

set_option maxHeartbeats 1000000 in
/-- C4 (amended) support: the circular move dispatches nothing and fails
with the zero-radius fault whenever the quantized radius vector is zero in
the active plane and the quantized delta passes the bounds pre-check. -/
theorem circular_zero_radius_fails (cfg : Config) (s : MachineState)
    (delta radius : Coordinates) (velocity : ℚ) (dir : Direction)
    (hok : (s.position + roundToSteps cfg delta).is_in_aabb envLo
      (envHi cfg) = true)
    (hra : planeA s.plane (roundToSteps cfg radius) = 0)
    (hrb : planeB s.plane (roundToSteps cfg radius) = 0) :
    circular cfg s delta radius velocity dir =
      ([], .error (.fault .zeroRadius)) := by
  simp only [circular, check_delta]
  rw [if_pos hok]
  cases hp : s.plane <;>
    simp only [hp, planeA, planeB] at hra hrb <;>
    rw [hra, hrb, adjust_circle_zero_radius]

set_option maxHeartbeats 1000000 in
/-- C4 counterexample: with a zero radius vector but an out-of-range
delta, the circular command fails with the out-of-range fault, not the
zero-radius fault, because `__check_delta` runs before `__adjust_circle`. -/
theorem circular_zero_radius_counterexample :
    circular cfg0 initial ⟨200, 0, 0, 0⟩ ⟨0, 0, 0, 0⟩ 100 .CW =
      ([], .error (.fault .outOfRange)) ∧
    RunError.fault .outOfRange ≠ RunError.fault .zeroRadius := by
  constructor
  · simp only [circular]
    rw [show check_delta cfg0 initial (roundToSteps cfg0 ⟨200, 0, 0, 0⟩) =
        .error (.fault .outOfRange) from by with_unfolding_all rfl]
  · simp

/-- Witness for the amended C4 at a concrete input: an in-range delta with
an in-plane-zero radius vector fails with the zero-radius fault. -/
theorem circular_zero_radius_fails_witness :
    (initial.position + roundToSteps cfg0 ⟨10, 0, 0, 0⟩).is_in_aabb envLo
      (envHi cfg0) = true ∧
    planeA initial.plane (roundToSteps cfg0 ⟨0, 0, 7, 0⟩) = 0 ∧
    planeB initial.plane (roundToSteps cfg0 ⟨0, 0, 7, 0⟩) = 0 ∧
    circular cfg0 initial ⟨10, 0, 0, 0⟩ ⟨0, 0, 7, 0⟩ 100 .CW =
      ([], .error (.fault .zeroRadius)) := by
  have h1 : (initial.position + roundToSteps cfg0 ⟨10, 0, 0, 0⟩).is_in_aabb
      envLo (envHi cfg0) = true := by with_unfolding_all rfl
  have h2 : planeA initial.plane (roundToSteps cfg0 ⟨0, 0, 7, 0⟩) = 0 := by
    with_unfolding_all rfl
  have h3 : planeB initial.plane (roundToSteps cfg0 ⟨0, 0, 7, 0⟩) = 0 := by
    with_unfolding_all rfl
  exact ⟨h1, h2, h3,
    circular_zero_radius_fails cfg0 initial _ _ 100 .CW h1 h2 h3⟩

theorem circular_acts_or_ok (cfg : Config) (s : MachineState)
    (delta radius : Coordinates) (velocity : ℚ) (dir : Direction) :
    (circular cfg s delta radius velocity dir).1 = [] ∨
      ∃ s', (circular cfg s delta radius velocity dir).2 = .ok s' := by
  unfold circular
  split <;>
    (dsimp only
     split
     · exact Or.inl rfl
     · split
       · exact Or.inl rfl
       · exact Or.inr ⟨_, rfl⟩)

open Classical in
set_option maxHeartbeats 2000000 in
/-- C3: for a full circle (both in-plane delta components exactly zero)
with a non-zero radius, the sentinel end quadrant 5 equals no real
quadrant, so the quadrant walk traverses all four transitions and the
arc check fails (with out-of-range) iff any of the four boundary checks
triggers; and whenever `_circular` fails, no segment has been dispatched. -/
theorem full_circle_checks_all_quadrants (ra rb : ℚ) (dir : Direction)
    (pa pb ma mb : ℚ) (hr : ¬(ra = 0 ∧ rb = 0)) :
    (adjust_circle 0 0 ra rb dir pa pb ma mb =
      if (pa : ℝ) + ra + Real.sqrt ((ra : ℝ) * ra + (rb : ℝ) * rb) > ma ∨
          (pb : ℝ) + rb + Real.sqrt ((ra : ℝ) * ra + (rb : ℝ) * rb) > mb ∨
          (pa : ℝ) + ra - Real.sqrt ((ra : ℝ) * ra + (rb : ℝ) * rb) < 0 ∨
          (pb : ℝ) + rb - Real.sqrt ((ra : ℝ) * ra + (rb : ℝ) * rb) < 0 then
        .error (.fault .outOfRange)
      else .ok (0, 0)) ∧
    ∀ cfg s delta radius velocity err,
      (circular cfg s delta radius velocity dir).2 = .error err →
      (circular cfg s delta radius velocity dir).1 = [] := by
  constructor
  · have hor : (ra : ℝ) ≠ 0 ∨ (rb : ℝ) ≠ 0 := by
      by_contra hcon
      push_neg at hcon
      exact hr ⟨by exact_mod_cast hcon.1, by exact_mod_cast hcon.2⟩
    have hr0 : Real.sqrt ((ra : ℝ) * ra + (rb : ℝ) * rb) ≠ 0 := by
      rw [Real.sqrt_ne_zero']
      rcases hor with h | h
      · nlinarith [mul_self_pos.mpr h, mul_self_nonneg (rb : ℝ)]
      · nlinarith [mul_self_pos.mpr h, mul_self_nonneg (ra : ℝ)]
    simp only [adjust_circle]
    rw [if_neg hr0, if_pos (by norm_num)]
    dsimp only
    rw [circle_walk_full dir ra rb _ pa pb ma mb _
      (quarter_mem (-(ra : ℝ)) (-(rb : ℝ)))]
    by_cases hC : (pa : ℝ) + ra + Real.sqrt ((ra : ℝ) * ra + (rb : ℝ) * rb)
        > ma ∨
        (pb : ℝ) + rb + Real.sqrt ((ra : ℝ) * ra + (rb : ℝ) * rb) > mb ∨
        (pa : ℝ) + ra - Real.sqrt ((ra : ℝ) * ra + (rb : ℝ) * rb) < 0 ∨
        (pb : ℝ) + rb - Real.sqrt ((ra : ℝ) * ra + (rb : ℝ) * rb) < 0
    · rw [if_pos hC, if_pos hC]
      simp [walk_then]
    · rw [if_neg hC, if_neg hC]
      simp [walk_then]

  · intro cfg s delta radius velocity err h
    rcases circular_acts_or_ok cfg s delta radius velocity dir with h1 | ⟨s', h2⟩
    · exact h1
    · rw [h2] at h
      exact absurd h (by simp)

/-- Witness for C3 at a concrete input: a full circle of radius 4 around
a centre 4 mm below the current point, well inside a 100 mm table, walks
all quadrants without fault and returns the zero in-plane end point. -/
theorem full_circle_checks_all_quadrants_witness :
    ¬((0 : ℚ) = 0 ∧ (-4 : ℚ) = 0) ∧
      adjust_circle 0 0 0 (-4) .CW 10 10 100 100 = .ok (0, 0) := by
  have hr : ¬((0 : ℚ) = 0 ∧ (-4 : ℚ) = 0) := by norm_num
  refine ⟨hr, ?_⟩
  have h := (full_circle_checks_all_quadrants 0 (-4) .CW 10 10 100 100 hr).1
  have hs : Real.sqrt (((0 : ℚ) : ℝ) * ((0 : ℚ) : ℝ) +
      ((-4 : ℚ) : ℝ) * ((-4 : ℚ) : ℝ)) = 4 := by
    push_cast
    rw [show ((0 : ℝ) * 0 + (-4) * (-4) : ℝ) = 4 ^ 2 by norm_num,
      Real.sqrt_sq (by norm_num)]
  rw [h, hs, if_neg (by push_cast; norm_num)]

set_option maxHeartbeats 2000000 in
/-- C5: the division computing `b = (db - rb) / (da - ra)` in
`__adjust_circle` is unguarded.  First conjunct: the `ZeroDivisionError`
outcome is unreachable whenever `da ≠ ra`.  Second conjunct: on the
quantized, in-bounds input delta (0, 5), radius (0, 3) the command fails
with the uncaught `ZeroDivisionError`.  Third conjunct: that error is not
a machine fault. -/
theorem division_by_zero_unguarded :
    (∀ da db ra rb dir pa pb ma mb, da ≠ ra →
      adjust_circle da db ra rb dir pa pb ma mb ≠ .error .zeroDivision) ∧
    circular cfg0 initial ⟨0, 5, 0, 0⟩ ⟨0, 3, 0, 0⟩ 100 .CW =
      ([], .error .zeroDivision) ∧
    ∀ e, RunError.zeroDivision ≠ RunError.fault e := by
  refine ⟨?_, ?_, ?_⟩
  · intro da db ra rb dir pa pb ma mb hne
    simp only [adjust_circle]
    split_ifs with h1 h2 h3
    · simp
    · dsimp only
      exact walk_then_ne_zeroDivision _ _
        (fun e he => circle_walk_error_outOfRange dir 5 ra rb _ pa pb ma mb
          4 _ _ e he)
    · exfalso
      apply hne
      have hda : (da : ℝ) = (ra : ℝ) := by linarith [sub_eq_zero.mp h3]
      exact_mod_cast hda
    · dsimp only
      exact walk_then_ne_zeroDivision _ _
        (fun e he => circle_walk_error_outOfRange dir _ ra rb _ pa pb ma mb
          4 _ _ e he)
  · have hadj : adjust_circle 0 5 0 3 .CW 0 0 100 100 =
        .error .zeroDivision := by
      have hr0 : Real.sqrt (((0 : ℚ) : ℝ) * ((0 : ℚ) : ℝ) +
          ((3 : ℚ) : ℝ) * ((3 : ℚ) : ℝ)) ≠ 0 := by
        push_cast
        rw [show ((0 : ℝ) * 0 + 3 * 3 : ℝ) = 3 ^ 2 by norm_num,
          Real.sqrt_sq (by norm_num)]
        norm_num
      simp only [adjust_circle]
      rw [if_neg hr0, if_neg (by norm_num), if_pos (by push_cast; norm_num)]
    simp only [circular]
    rw [show check_delta cfg0 initial (roundToSteps cfg0 ⟨0, 5, 0, 0⟩) =
      .ok () from by with_unfolding_all rfl]
    dsimp only
    rw [show initial.plane = Plane.XY from rfl]
    dsimp only
    rw [show roundToSteps cfg0 (⟨0, 5, 0, 0⟩ : Coordinates) = ⟨0, 5, 0, 0⟩
      from by with_unfolding_all rfl]
    rw [show roundToSteps cfg0 (⟨0, 3, 0, 0⟩ : Coordinates) = ⟨0, 3, 0, 0⟩
      from by with_unfolding_all rfl]
    dsimp only
    rw [show initial.position.x = 0 from rfl,
      show initial.position.y = 0 from rfl,
      show cfg0.table_size_x = 100 from rfl,
      show cfg0.table_size_y = 100 from rfl]
    rw [hadj]
  · intro e
    simp

/-- Witness for the first conjunct of C5 at a concrete input: with
`da = 1 ≠ 3 = ra` the division is defined and no `ZeroDivisionError`
escapes. -/
theorem division_by_zero_unguarded_witness :
    adjust_circle 1 0 3 0 .CW 0 0 50 50 ≠ .error .zeroDivision :=
  division_by_zero_unguarded.1 1 0 3 0 .CW 0 0 50 50 (by norm_num)

theorem add_cancel_mid (p a b : Coordinates) : p + a + (b - a) = p + b := by
  ext <;> simp only [Coordinates.add_def, Coordinates.sub_def] <;> ring

theorem check_delta_ok (cfg : Config) (s : MachineState) (delta : Coordinates)
    (u : Unit) (h : check_delta cfg s delta = .ok u) :
    (s.position + delta).is_in_aabb envLo (envHi cfg) = true := by
  unfold check_delta at h
  dsimp only at h
  split at h
  · assumption
  · exact absurd h (by simp)

theorem move_linear_ok_pos (cfg : Config) (s : MachineState)
    (delta : Coordinates) (velocity : ℚ) (s' : MachineState)
    (hpos : s.position.is_in_aabb envLo (envHi cfg) = true)
    (h : (move_linear cfg s delta velocity).2 = .ok s') :
    s'.position.is_in_aabb envLo (envHi cfg) = true := by
  unfold move_linear at h
  dsimp only at h
  split at h
  · dsimp only at h
    injection h with h'
    rw [← h']
    exact hpos
  · split at h
    · exact absurd h (by simp)
    · rename_i u heq
      dsimp only at h
      injection h with h'
      rw [← h']
      exact check_delta_ok cfg s _ u heq

theorem home_ok_pos (cfg : Config) (s : MachineState) (s' : MachineState)
    (hpos : s.position.is_in_aabb envLo (envHi cfg) = true)
    (h : (home cfg s).2 = .ok s') :
    s'.position.is_in_aabb envLo (envHi cfg) = true := by
  unfold home at h
  split at h
  · exact absurd h (by simp)
  · rename_i a1 s1 heq1
    split at h
    rename_i a2 r heq2
    dsimp only at h
    have hs1 : s1.position.is_in_aabb envLo (envHi cfg) = true := by
      apply move_linear_ok_pos cfg s _ _ _ hpos
      rw [heq1]
    apply move_linear_ok_pos cfg s1 _ _ _ hs1
    rw [heq2, h]

theorem circular_ok_pos (cfg : Config) (s : MachineState)
    (delta radius : Coordinates) (velocity : ℚ) (dir : Direction)
    (s' : MachineState)
    (h : (circular cfg s delta radius velocity dir).2 = .ok s') :
    s'.position.is_in_aabb envLo (envHi cfg) = true := by
  unfold circular at h
  split at h <;> dsimp only at h <;>
    (split at h
     · exact absurd h (by simp)
     · rename_i u heqChk
       split at h
       · exact absurd h (by simp)
       · rename_i p heqAdj
         dsimp only at h
         injection h with h'
         rw [← h']
         dsimp only
         rw [add_cancel_mid]
         exact check_delta_ok cfg s _ u heqChk)

theorem setHeaterTarget_position (s : MachineState) (h : HeaterId)
    (t : Option ℚ) : (setHeaterTarget s h t).position = s.position := by
  cases h <;> rfl

theorem heat_ok_pos (env : Env) (s : MachineState) (heater : HeaterId)
    (t : ℚ) (w : Bool) (s' : MachineState)
    (h : (heat env s heater t w).2 = .ok s') :
    s'.position = s.position := by
  unfold heat at h
  split at h
  · exact absurd h (by simp)
  · split at h <;> split at h <;>
      (dsimp only at h
       injection h with h'
       rw [← h']) <;>
      simp [setHeaterTarget_position]

theorem mapRes_snd_ok (p : List HalAction × Except RunError MachineState)
    (s' : MachineState) (ans : Option Answer)
    (h : (mapRes p).2 = .ok (s', ans)) : p.2 = .ok s' := by
  rcases p with ⟨a, r⟩
  cases r with
  | error e => simp [mapRes, Except.map] at h
  | ok st =>
      simp [mapRes, Except.map] at h
      rw [h.1]

set_option maxHeartbeats 2000000 in
theorem dispatch_ok_pos (cfg : Config) (env : Env) (s : MachineState)
    (g : GCode) (c : Option String) (delta radius : Coordinates)
    (velocity pause : ℚ) (s' : MachineState) (ans : Option Answer)
    (hpos : s.position.is_in_aabb envLo (envHi cfg) = true)
    (h : (dispatch cfg env s g c delta radius velocity pause).2 =
      .ok (s', ans)) :
    s'.position.is_in_aabb envLo (envHi cfg) = true := by
  rw [dispatch] at h
  by_cases hc0 : c = some ("G0")
  · rw [if_pos hc0] at h
    exact move_linear_ok_pos _ _ _ _ _ hpos (mapRes_snd_ok _ _ _ h)
  rw [if_neg hc0] at h
  by_cases hc1 : c = some ("G1")
  · rw [if_pos hc1] at h
    exact move_linear_ok_pos _ _ _ _ _ hpos (mapRes_snd_ok _ _ _ h)
  rw [if_neg hc1] at h
  by_cases hc2 : c = some ("G2")
  · rw [if_pos hc2] at h
    exact circular_ok_pos _ _ _ _ _ _ _ (mapRes_snd_ok _ _ _ h)
  rw [if_neg hc2] at h
  by_cases hc3 : c = some ("G3")
  · rw [if_pos hc3] at h
    exact circular_ok_pos _ _ _ _ _ _ _ (mapRes_snd_ok _ _ _ h)
  rw [if_neg hc3] at h
  by_cases hc4 : c = some ("G4")
  · rw [if_pos hc4] at h
    dsimp only at h
    rw [Except.ok.injEq, Prod.mk.injEq] at h
    rw [← h.1]
    exact hpos
  rw [if_neg hc4] at h
  by_cases hc5 : c = some ("G17")
  · rw [if_pos hc5] at h
    dsimp only at h
    rw [Except.ok.injEq, Prod.mk.injEq] at h
    rw [← h.1]
    exact hpos
  rw [if_neg hc5] at h
  by_cases hc6 : c = some ("G18")
  · rw [if_pos hc6] at h
    dsimp only at h
    rw [Except.ok.injEq, Prod.mk.injEq] at h
    rw [← h.1]
    exact hpos
  rw [if_neg hc6] at h
  by_cases hc7 : c = some ("G19")
  · rw [if_pos hc7] at h
    dsimp only at h
    rw [Except.ok.injEq, Prod.mk.injEq] at h
    rw [← h.1]
    exact hpos
  rw [if_neg hc7] at h
  by_cases hc8 : c = some ("G20")
  · rw [if_pos hc8] at h
    dsimp only at h
    rw [Except.ok.injEq, Prod.mk.injEq] at h
    rw [← h.1]
    exact hpos
  rw [if_neg hc8] at h
  by_cases hc9 : c = some ("G21")
  · rw [if_pos hc9] at h
    dsimp only at h
    rw [Except.ok.injEq, Prod.mk.injEq] at h
    rw [← h.1]
    exact hpos
  rw [if_neg hc9] at h
  by_cases hc10 : c = some ("G28")
  · rw [if_pos hc10] at h
    exact home_ok_pos _ _ _ hpos (mapRes_snd_ok _ _ _ h)
  rw [if_neg hc10] at h
  by_cases hc11 : c = some ("G53")
  · rw [if_pos hc11] at h
    dsimp only at h
    rw [Except.ok.injEq, Prod.mk.injEq] at h
    rw [← h.1]
    exact hpos
  rw [if_neg hc11] at h
  by_cases hc12 : c = some ("G90")
  · rw [if_pos hc12] at h
    dsimp only at h
    rw [Except.ok.injEq, Prod.mk.injEq] at h
    rw [← h.1]
    exact hpos
  rw [if_neg hc12] at h
  by_cases hc13 : c = some ("G91")
  · rw [if_pos hc13] at h
    dsimp only at h
    rw [Except.ok.injEq, Prod.mk.injEq] at h
    rw [← h.1]
    exact hpos
  rw [if_neg hc13] at h
  by_cases hc14 : c = some ("G92")
  · rw [if_pos hc14] at h
    dsimp only at h
    rw [Except.ok.injEq, Prod.mk.injEq] at h
    rw [← h.1]
    exact hpos
  rw [if_neg hc14] at h
  by_cases hc15 : c = some ("M3")
  · rw [if_pos hc15] at h
    dsimp only at h
    split at h
    · exact absurd h (by simp)
    · dsimp only at h
      rw [Except.ok.injEq, Prod.mk.injEq] at h
      rw [← h.1]
      exact hpos
  rw [if_neg hc15] at h
  by_cases hc16 : c = some ("M5")
  · rw [if_pos hc16] at h
    dsimp only at h
    rw [Except.ok.injEq, Prod.mk.injEq] at h
    rw [← h.1]
    exact hpos
  rw [if_neg hc16] at h
  by_cases hc17 : c = some ("M2") ∨ c = some ("M30")
  · rw [if_pos hc17] at h
    dsimp only at h
    rw [Except.ok.injEq, Prod.mk.injEq] at h
    rw [← h.1]
    exact hpos
  rw [if_neg hc17] at h
  by_cases hc18 : c = some ("M104") ∨ c = some ("M109") ∨ c = some ("M140") ∨ c = some ("M190")
  · rw [if_pos hc18] at h
    dsimp only at h
    repeat' split at h
    all_goals
      first
        | exact absurd h (by simp)
        | (rw [heat_ok_pos _ _ _ _ _ _ (mapRes_snd_ok _ _ _ h)]; exact hpos)
  rw [if_neg hc18] at h
  by_cases hc19 : c = some ("M105")
  · rw [if_pos hc19] at h
    split at h
    · exact absurd h (by simp)
    · dsimp only at h
      rw [Except.ok.injEq, Prod.mk.injEq] at h
      rw [← h.1]
      exact hpos
  rw [if_neg hc19] at h
  by_cases hc20 : c = some ("M106")
  · rw [if_pos hc20] at h
    split at h
    · dsimp only at h
      rw [Except.ok.injEq, Prod.mk.injEq] at h
      rw [← h.1]
      exact hpos
    · dsimp only at h
      rw [Except.ok.injEq, Prod.mk.injEq] at h
      rw [← h.1]
      exact hpos
  rw [if_neg hc20] at h
  by_cases hc21 : c = some ("M107")
  · rw [if_pos hc21] at h
    dsimp only at h
    rw [Except.ok.injEq, Prod.mk.injEq] at h
    rw [← h.1]
    exact hpos
  rw [if_neg hc21] at h
  by_cases hc22 : c = some ("M111")
  · rw [if_pos hc22] at h
    dsimp only at h
    rw [Except.ok.injEq, Prod.mk.injEq] at h
    rw [← h.1]
    exact hpos
  rw [if_neg hc22] at h
  by_cases hc23 : c = some ("M114")
  · rw [if_pos hc23] at h
    dsimp only at h
    rw [Except.ok.injEq, Prod.mk.injEq] at h
    rw [← h.1]
    exact hpos
  rw [if_neg hc23] at h
  by_cases hc24 : c = none
  · rw [if_pos hc24] at h
    dsimp only at h
    rw [Except.ok.injEq, Prod.mk.injEq] at h
    rw [← h.1]
    exact hpos
  rw [if_neg hc24] at h
  exact absurd h (by simp)

theorem map_save_ok (r : Except RunError (MachineState × Option Answer))
    (v p : ℚ) (s' : MachineState) (ans : Option Answer)
    (h : r.map (fun q => ({ q.1 with velocity := v, pause := p }, q.2)) =
      .ok (s', ans)) :
    ∃ s0 ans0, r = .ok (s0, ans0) ∧ s'.position = s0.position := by
  cases r with
  | error e => simp [Except.map] at h
  | ok q =>
      obtain ⟨q1, q2⟩ := q
      simp only [Except.map, Except.ok.injEq, Prod.mk.injEq] at h
      exact ⟨q1, q2, rfl, by rw [← h.1]⟩

theorem do_command_ok_pos (cfg : Config) (env : Env) (s : MachineState)
    (g : GCode) (s' : MachineState) (ans : Option Answer)
    (hpos : s.position.is_in_aabb envLo (envHi cfg) = true)
    (h : (do_command cfg env s g).2 = .ok (s', ans)) :
    s'.position.is_in_aabb envLo (envHi cfg) = true := by
  unfold do_command at h
  dsimp only at h
  repeat' split at h
  all_goals try solve | simp at h
  all_goals
    (dsimp only at h
     obtain ⟨s0, ans0, hd, hpos'⟩ := map_save_ok _ _ _ _ _ h
     rw [hpos']
     exact dispatch_ok_pos _ _ _ _ _ _ _ _ _ _ _ hpos hd)

theorem run_commands_inv (cfg : Config) (env : Env) (gs : List GCode) :
    ∀ s : MachineState, s.position.is_in_aabb envLo (envHi cfg) = true →
      (run_commands cfg env s gs).position.is_in_aabb envLo (envHi cfg) =
        true := by
  induction gs with
  | nil =>
      intro s hs
      rw [run_commands]
      exact hs
  | cons g gs ih =>
      intro s hs
      rw [run_commands]
      rcases hd : (do_command cfg env s g).2 with e | p
      · exact ih s hs
      · exact ih p.1 (do_command_ok_pos cfg env s g p.1 p.2 hs (by rw [hd]))

/-- C1: starting from the initial state (position (0,0,0,0)) and
processing any sequence of commands — where a faulting command leaves the
stored state untouched — the stored machine position always lies within
the travel envelope [(0,0,0,0), (table_size_x, table_size_y,
table_size_z, 0)]; each commit in `_move_linear` and `_circular` happens
only behind the passed `__check_delta` bounds check, which is what the
preservation argument uses. -/
theorem position_invariant (cfg : Config) (env : Env)
    (hx : 0 ≤ cfg.table_size_x) (hy : 0 ≤ cfg.table_size_y)
    (hz : 0 ≤ cfg.table_size_z) (gs : List GCode) :
    (run_commands cfg env initial gs).position.is_in_aabb envLo
      (envHi cfg) = true := by
  apply run_commands_inv
  rw [Coordinates.is_in_aabb_iff]
  refine ⟨⟨le_refl 0, hx⟩, ⟨le_refl 0, hy⟩, ⟨le_refl 0, hz⟩,
    le_refl 0, le_refl 0⟩

/-- Witness for C1 at a concrete input: a two-command sequence (switch to
millimetres, then home) on the concrete configuration keeps the position
inside the envelope. -/
theorem position_invariant_witness :
    (0 : ℚ) ≤ cfg0.table_size_x ∧ (0 : ℚ) ≤ cfg0.table_size_y ∧
      (0 : ℚ) ≤ cfg0.table_size_z ∧
      (run_commands cfg0 env0 initial
        [bareGCode (some ("G21")), bareGCode (some ("G28"))]).position.is_in_aabb
        envLo (envHi cfg0) = true :=
  ⟨by norm_num [cfg0], by norm_num [cfg0], by norm_num [cfg0],
   position_invariant cfg0 env0 (by norm_num [cfg0]) (by norm_num [cfg0])
     (by norm_num [cfg0]) [bareGCode (some ("G21")), bareGCode (some ("G28"))]⟩

set_option maxHeartbeats 1000000 in
/-- C10: a unit-select command (G20 for inches, G21 for millimetres)
changes only the unit-conversion multiplier (to 25.4 or 1.0
respectively): it dispatches no hardware action and leaves the stored
position — and every state field other than the multiplier and the
velocity/pause defaults that every successful command saves from its own
parameters — unchanged. -/
theorem unit_select_only_changes_multiplier (cfg : Config) (env : Env)
    (s : MachineState) (g : GCode)
    (hc : g.command = some ("G20") ∨ g.command = some ("G21"))
    (hv : 0 < g.get ("F") s.velocity)
    (hvm : g.get ("F") s.velocity ≤ cfg.max_velocity)
    (hp : 0 ≤ g.get ("P") s.pause) :
    do_command cfg env s g =
      ([], .ok ({ s with
        convertCoordinates :=
          if g.command = some ("G20") then 254 / 10 else 1
        velocity := g.get ("F") s.velocity
        pause := g.get ("P") s.pause }, none)) := by
  have hv' : ¬(g.get ("F") s.velocity ≤ 0) := not_le.mpr hv
  have hvm' : ¬(g.get ("F") s.velocity > cfg.max_velocity) := not_lt.mpr hvm
  have hp' : ¬(g.get ("P") s.pause < 0) := not_lt.mpr hp
  rcases hc with h | h <;>
    simp [do_command, dispatch, Except.map, h, hv', hvm', hp']

/-- Witness for C10 at a concrete input: a bare G20 line from the initial
state switches the multiplier to 25.4 and changes nothing else. -/
theorem unit_select_only_changes_multiplier_witness :
    do_command cfg0 env0 initial (bareGCode (some ("G20"))) =
      ([], .ok ({ initial with
        convertCoordinates :=
          if (bareGCode (some ("G20"))).command = some ("G20") then 254 / 10
          else 1
        velocity := (bareGCode (some ("G20"))).get ("F") initial.velocity
        pause := (bareGCode (some ("G20"))).get ("P") initial.pause },
        none)) :=
  unit_select_only_changes_multiplier cfg0 env0 initial
    (bareGCode (some ("G20"))) (Or.inl rfl)
    (by norm_num [initial, bareGCode]) (by norm_num [initial, cfg0, bareGCode])
    (by norm_num [initial, bareGCode])

set_option maxHeartbeats 1000000 in
/-- C6 (amended): a successful program-end command (M2 or M30) resets the
spindle default, local offset, unit multiplier, coordinate mode and plane
to their defaults, but the feed-velocity and pause defaults are then
overwritten from the command's parameters (with the pre-command values as
defaults) by the final save step of `do_command`, so they do not
necessarily equal the reset defaults 1000 and 0. -/
theorem program_end_resets (cfg : Config) (env : Env) (s : MachineState)
    (g : GCode)
    (hc : g.command = some ("M2") ∨ g.command = some ("M30"))
    (hv : 0 < g.get ("F") s.velocity)
    (hvm : g.get ("F") s.velocity ≤ cfg.max_velocity)
    (hp : 0 ≤ g.get ("P") s.pause) :
    do_command cfg env s g =
      ([], .ok ({ s with
        velocity := g.get ("F") s.velocity
        pause := g.get ("P") s.pause
        spindle_rpm := 1000
        local_offset := ⟨0, 0, 0, 0⟩
        convertCoordinates := 1
        absoluteCoordinates := true
        plane := .XY }, none)) := by
  have hv' : ¬(g.get ("F") s.velocity ≤ 0) := not_le.mpr hv
  have hvm' : ¬(g.get ("F") s.velocity > cfg.max_velocity) := not_lt.mpr hvm
  have hp' : ¬(g.get ("P") s.pause < 0) := not_lt.mpr hp
  rcases hc with h | h <;>
    simp [do_command, dispatch, reset, Except.map, h, hv', hvm', hp']

/-- C6 counterexample: from a state whose feed-velocity default is 600, a
bare M2 command succeeds but leaves the feed-velocity default at 600, not
at the reset default 1000: the final parameter-save step of `do_command`
overwrites the value `reset` installed. -/
theorem program_end_counterexample :
    (do_command cfg0 env0 { initial with velocity := 600 }
        (bareGCode (some ("M2")))).2 =
      .ok ({ initial with velocity := 600 }, none) ∧
    ({ initial with velocity := 600 } : MachineState).velocity ≠ 1000 := by
  constructor
  · rfl
  · norm_num

/-- Witness for the amended C6 at a concrete input: a bare M2 from a
state with feed velocity 600 resets everything except the velocity and
pause defaults, which keep their resolved parameter values. -/
theorem program_end_resets_witness :
    do_command cfg0 env0 { initial with velocity := 600 }
        (bareGCode (some ("M2"))) =
      ([], .ok ({ { initial with velocity := 600 } with
        velocity := (bareGCode (some ("M2"))).get ("F") 600
        pause := (bareGCode (some ("M2"))).get ("P") 0
        spindle_rpm := 1000
        local_offset := ⟨0, 0, 0, 0⟩
        convertCoordinates := 1
        absoluteCoordinates := true
        plane := .XY }, none)) :=
  program_end_resets cfg0 env0 { initial with velocity := 600 }
    (bareGCode (some ("M2"))) (Or.inl rfl) (by norm_num [bareGCode])
    (by norm_num [bareGCode, cfg0]) (by norm_num [bareGCode, initial])

/-- C8: from any reachable position (inside the travel envelope and on the
step grid), `home` first dispatches the move of the Z axis to zero, then
the move of the X and Y axes to zero, succeeds, and ends with stored
position (0, 0, 0, aux) with the auxiliary component unchanged. -/
theorem home_round_trip (cfg : Config) (s : MachineState)
    (hq : roundToSteps cfg s.position = s.position)
    (hin : s.position.is_in_aabb envLo (envHi cfg) = true) :
    home cfg s =
      ((if s.position.z = 0 then [] else
          [HalAction.move_linear ⟨0, 0, -s.position.z, 0⟩
            cfg.max_velocity]) ++
        (if s.position.x = 0 ∧ s.position.y = 0 then [] else
          [HalAction.move_linear ⟨-s.position.x, -s.position.y, 0, 0⟩
            cfg.max_velocity]),
       .ok { s with position := ⟨0, 0, 0, s.position.e⟩ }) := by
  have hqx : quantizeAxis s.position.x (1 / cfg.ppmm_x) = s.position.x :=
    congrArg Coordinates.x hq
  have hqy : quantizeAxis s.position.y (1 / cfg.ppmm_y) = s.position.y :=
    congrArg Coordinates.y hq
  have hqz : quantizeAxis s.position.z (1 / cfg.ppmm_z) = s.position.z :=
    congrArg Coordinates.z hq
  rw [Coordinates.is_in_aabb_iff] at hin
  simp only [envLo, envHi] at hin
  obtain ⟨⟨hx0, hx1⟩, ⟨hy0, hy1⟩, ⟨hz0, hz1⟩, ⟨he0, he1⟩⟩ := hin
  have hd1 : roundToSteps cfg (⟨0, 0, -s.position.z, 0⟩ : Coordinates) =
      ⟨0, 0, -s.position.z, 0⟩ := by
    simp only [roundToSteps, Coordinates.round, Coordinates.mk.injEq]
    exact ⟨quantizeAxis_zero _, quantizeAxis_zero _,
      quantizeAxis_neg_of_fixed hqz, quantizeAxis_zero _⟩
  have hd2 : roundToSteps cfg
      (⟨-s.position.x, -s.position.y, 0, 0⟩ : Coordinates) =
      ⟨-s.position.x, -s.position.y, 0, 0⟩ := by
    simp only [roundToSteps, Coordinates.round, Coordinates.mk.injEq]
    exact ⟨quantizeAxis_neg_of_fixed hqx, quantizeAxis_neg_of_fixed hqy,
      quantizeAxis_zero _, quantizeAxis_zero _⟩
  have hadd1 : s.position + (⟨0, 0, -s.position.z, 0⟩ : Coordinates) =
      ⟨s.position.x, s.position.y, 0, s.position.e⟩ := by
    ext <;> simp
  have hin1 : (Coordinates.is_in_aabb
      ⟨s.position.x, s.position.y, 0, s.position.e⟩ envLo (envHi cfg)) =
      true := by
    rw [Coordinates.is_in_aabb_iff]
    exact ⟨⟨hx0, hx1⟩, ⟨hy0, hy1⟩, ⟨le_refl 0, le_trans hz0 hz1⟩,
      ⟨he0, he1⟩⟩
  have hin2 : (Coordinates.is_in_aabb ⟨0, 0, 0, s.position.e⟩ envLo
      (envHi cfg)) = true := by
    rw [Coordinates.is_in_aabb_iff]
    exact ⟨⟨le_refl 0, le_trans hx0 hx1⟩, ⟨le_refl 0, le_trans hy0 hy1⟩,
      ⟨le_refl 0, le_trans hz0 hz1⟩, ⟨he0, he1⟩⟩
  unfold home
  rw [move_linear_eval cfg s _ _ hd1, hadd1]
  by_cases hz : s.position.z = 0
  · have hzero1 : (Coordinates.is_zero ⟨0, 0, -s.position.z, 0⟩) = true := by
      rw [Coordinates.is_zero_iff, hz]
      norm_num
    rw [if_pos hzero1, if_pos hz]
    dsimp only
    rw [move_linear_eval cfg s _ _ hd2]
    by_cases hxy : s.position.x = 0 ∧ s.position.y = 0
    · have hzero2 : (Coordinates.is_zero
          ⟨-s.position.x, -s.position.y, 0, 0⟩) = true := by
        rw [Coordinates.is_zero_iff, hxy.1, hxy.2]
        norm_num
      rw [if_pos hzero2, if_pos hxy]
      have hs : ({ s with position :=
          (⟨0, 0, 0, s.position.e⟩ : Coordinates) } : MachineState) = s := by
        have hp : (⟨0, 0, 0, s.position.e⟩ : Coordinates) = s.position := by
          ext <;> simp [hxy.1, hxy.2, hz]
        rw [hp]
      rw [hs]
    · have hzero2 : (Coordinates.is_zero
          ⟨-s.position.x, -s.position.y, 0, 0⟩) ≠ true := by
        intro hc
        rw [Coordinates.is_zero_iff] at hc
        have hcx := congrArg Coordinates.x hc
        have hcy := congrArg Coordinates.y hc
        simp only [neg_eq_zero] at hcx hcy
        exact hxy ⟨hcx, hcy⟩
      rw [if_neg hzero2, if_neg hxy]
      have hadd2 : s.position +
          (⟨-s.position.x, -s.position.y, 0, 0⟩ : Coordinates) =
          ⟨0, 0, 0, s.position.e⟩ := by
        ext <;> simp [hz]
      rw [hadd2, if_pos hin2]
  · have hzero1 : (Coordinates.is_zero ⟨0, 0, -s.position.z, 0⟩) ≠ true := by
      intro hc
      rw [Coordinates.is_zero_iff] at hc
      have hcz := congrArg Coordinates.z hc
      simp only [neg_eq_zero] at hcz
      exact hz hcz
    rw [if_neg hzero1, if_neg hz, if_pos hin1]
    dsimp only
    rw [move_linear_eval cfg _ _ _ hd2]
    by_cases hxy : s.position.x = 0 ∧ s.position.y = 0
    · have hzero2 : (Coordinates.is_zero
          ⟨-s.position.x, -s.position.y, 0, 0⟩) = true := by
        rw [Coordinates.is_zero_iff, hxy.1, hxy.2]
        norm_num
      rw [if_pos hzero2, if_pos hxy]
      have hp : (⟨s.position.x, s.position.y, 0, s.position.e⟩ :
          Coordinates) = ⟨0, 0, 0, s.position.e⟩ := by
        ext <;> simp [hxy.1, hxy.2]
      simp [hp]
    · have hzero2 : (Coordinates.is_zero
          ⟨-s.position.x, -s.position.y, 0, 0⟩) ≠ true := by
        intro hc
        rw [Coordinates.is_zero_iff] at hc
        have hcx := congrArg Coordinates.x hc
        have hcy := congrArg Coordinates.y hc
        simp only [neg_eq_zero] at hcx hcy
        exact hxy ⟨hcx, hcy⟩
      rw [if_neg hzero2, if_neg hxy]
      have hadd2 : (⟨s.position.x, s.position.y, 0, s.position.e⟩ :
          Coordinates) + ⟨-s.position.x, -s.position.y, 0, 0⟩ =
          ⟨0, 0, 0, s.position.e⟩ := by
        ext <;> simp
      rw [hadd2, if_pos hin2]

/-- Witness for C8 at a concrete input: homing from (5, 7, 9, 0) issues
the Z move first, then the XY move, and parks at the origin. -/
theorem home_round_trip_witness :
    roundToSteps cfg0 (⟨5, 7, 9, 0⟩ : Coordinates) = ⟨5, 7, 9, 0⟩ ∧
      Coordinates.is_in_aabb ⟨5, 7, 9, 0⟩ envLo (envHi cfg0) = true ∧
      home cfg0 { initial with position := ⟨5, 7, 9, 0⟩ } =
        ([HalAction.move_linear ⟨0, 0, -9, 0⟩ 2400,
          HalAction.move_linear ⟨-5, -7, 0, 0⟩ 2400],
         .ok initial) := by
  refine ⟨?_, ?_, ?_⟩
  · with_unfolding_all rfl
  · with_unfolding_all rfl
  · have h := home_round_trip cfg0 { initial with position := ⟨5, 7, 9, 0⟩ }
      (by with_unfolding_all rfl) (by with_unfolding_all rfl)
    rw [h]
    with_unfolding_all rfl

end PyCNC
